import Mathlib

/-!
Verification of the context-currency core of the `ogl` OpenGL wrapper
(`src/context.cpp`).

The embedding models the two currency strategies:

* `MonoContext_impl` — a single process-wide pointer slot
  (`static MonoContext_impl* current_context`), no locking;
* `MultiContext_impl` — a shared map from thread identity to instance
  pointer (`static std::map<std::thread::id, MultiContext_impl*>
  current_context`) guarded by a process-wide recursive mutex, each
  instance permanently bound to its creating thread.

Pointer identity of a `Context_impl` object is modelled by a natural
number `InstId`; `std::thread::id` by `ThreadId`.  Observable effects at
the hook / driver boundary (calls of `on_made_not_current`, stores into
the current slot, `glClear` submissions) are reified as event lists so
that ordering claims can be stated.  C++ exception propagation is
modelled by an explicit error channel (`Except` or an `err` field):
functions of the source that never throw produce `Except.ok` values or
`err = none`.
-/

namespace Ogl

/-- Pointer identity of a `Context_impl` object. -/
abbrev InstId := Nat

/-- Model of `std::thread::id`. -/
abbrev ThreadId := Nat

/-- Error taxonomy of `gl::exception` as thrown by `context.cpp`:
the inactive-context failure of `gl::get` and the cross-thread failure
of `MultiContext_impl::make_current`. -/
inductive GlError where
  | inactiveContext
  | crossThreadAccess
  deriving DecidableEq, Repr

/-- Observable events at the hook / slot boundary:
`hookCall i` is an invocation of `on_made_not_current()` on instance `i`;
`setCurrent i` is a store of instance `i` into the current slot. -/
inductive Event where
  | hookCall (i : InstId)
  | setCurrent (i : InstId)
  deriving DecidableEq, Repr

/-! ### Single-owner variant: `MonoContext_impl` -/

/-- The process-wide slot `MonoContext_impl::current_context`,
initialized to the null pointer (`none`). -/
structure MonoState where
  current_context : Option InstId
  deriving DecidableEq, Repr

/-- The initial value `MonoContext_impl* MonoContext_impl::current_context { 0 }`. -/
def monoState0 : MonoState := ⟨none⟩

/-- `MonoContext_impl::make_current()`:
if `current_context` is non-null and differs from `this`, invoke its
`on_made_not_current()` hook; then assign `current_context = this`
unconditionally.  Returns the new state together with the ordered list
of hook calls and slot stores performed. -/
def monoMakeCurrent (self : InstId) (s : MonoState) : MonoState × List Event :=
  match s.current_context with
  | some c =>
      if c ≠ self then
        (⟨some self⟩, [Event.hookCall c, Event.setCurrent self])
      else
        (⟨some self⟩, [Event.setCurrent self])
  | none => (⟨some self⟩, [Event.setCurrent self])

/-- `MonoContext_impl::current()`: `return current_context == this;`. -/
def monoCurrent (self : InstId) (s : MonoState) : Bool :=
  decide (s.current_context = some self)

/-- `MonoContext_impl::~MonoContext_impl()`:
if `current_context == this`, reset it to the null pointer. -/
def monoDestroy (self : InstId) (s : MonoState) : MonoState :=
  if s.current_context = some self then ⟨none⟩ else s

/-- `MonoContext_impl::MonoContext_impl(...)`: the constructor body calls
`make_current()`. -/
def monoConstruct (newId : InstId) (s : MonoState) : MonoState × List Event :=
  monoMakeCurrent newId s

/-! ### Per-thread-owner variant: `MultiContext_impl` -/

/-- A `MultiContext_impl` instance: its pointer identity and the field
`_thread_id` captured at construction via `std::this_thread::get_id()`. -/
structure MultiInst where
  id : InstId
  thread_id : ThreadId
  deriving DecidableEq, Repr

/-- The shared mapping
`std::map<std::thread::id, MultiContext_impl*> MultiContext_impl::current_context`.
A key maps to `some i` when the map holds a (non-null) pointer to
instance `i` for that thread, and to `none` when the key is absent.  At
every function boundary of the source no entry holds a null pointer:
the transient null created by `operator[]` inside `make_current` is
overwritten before the lock is released, so absence and nullness
coincide observationally and are merged here. -/
structure MultiState where
  current_context : ThreadId → Option InstId

/-- The initially empty shared mapping. -/
def multiState0 : MultiState := ⟨fun _ => none⟩

/-- Result of a call on a `MultiContext_impl`: the thrown exception if
any (`err`), the shared mapping after the call, and the ordered hook /
store events.  When `err` is `some e` the map is the one left behind by
the throwing call. -/
structure MultiResult where
  err : Option GlError
  state : MultiState
  events : List Event

/-- `MultiContext_impl::make_current()` called from thread
`callerThread`:
if the calling thread differs from `_thread_id`, throw the
cross-thread `gl::exception` before touching the map; otherwise, under
the lock, let `i` be the slot `current_context[_thread_id]` (default:
absent, i.e. null), and if `i != this` then invoke the hook of `i` when
`i` is non-null and store `this` into the slot.  The trailing call of
the no-op base `Context_impl::make_current()` has no effect and is
omitted. -/
def multiMakeCurrent (callerThread : ThreadId) (inst : MultiInst) (s : MultiState) :
    MultiResult :=
  if callerThread ≠ inst.thread_id then
    ⟨some GlError.crossThreadAccess, s, []⟩
  else
    match s.current_context inst.thread_id with
    | none =>
        ⟨none, ⟨Function.update s.current_context inst.thread_id (some inst.id)⟩,
          [Event.setCurrent inst.id]⟩
    | some j =>
        if j ≠ inst.id then
          ⟨none, ⟨Function.update s.current_context inst.thread_id (some inst.id)⟩,
            [Event.hookCall j, Event.setCurrent inst.id]⟩
        else
          ⟨none, s, []⟩

/-- `MultiContext_impl::current()` called from thread `callerThread`:
if the calling thread differs from `_thread_id`, return `false`
immediately (before the lock, without reading the map); otherwise look
up `_thread_id` and compare the entry with `this`.  The source never
throws here, so every result is `Except.ok`; the explicit `Except`
channel records that no error is surfaced. -/
def multiCurrent (callerThread : ThreadId) (inst : MultiInst) (s : MultiState) :
    Except GlError Bool :=
  if callerThread ≠ inst.thread_id then
    Except.ok false
  else
    Except.ok (decide (s.current_context inst.thread_id = some inst.id))

/-- `MultiContext_impl::~MultiContext_impl()`:
under the lock, erase the entry for `_thread_id` if it exists and
equals `this`. -/
def multiDestroy (inst : MultiInst) (s : MultiState) : MultiState :=
  if s.current_context inst.thread_id = some inst.id then
    ⟨Function.update s.current_context inst.thread_id none⟩
  else s

/-- `MultiContext_impl::MultiContext_impl(...)`: captures
`_thread_id = std::this_thread::get_id()` and calls `make_current()`
from that same thread. -/
def multiConstruct (callerThread : ThreadId) (newId : InstId) (s : MultiState) :
    MultiInst × MultiResult :=
  (⟨newId, callerThread⟩, multiMakeCurrent callerThread ⟨newId, callerThread⟩ s)

/-! ### Parameter reader: the `gl::get` template -/

/-- `gl::get<T, GET>(Context const&, GLenum)`:
if `context.current()` is false, throw the inactive-context
`gl::exception`; otherwise issue the typed native query `GET` and
return the value the driver reports.  `current` is the result of
`context.current()` for the calling thread, and `driver` is the oracle
for the native `glGet*` entry point of the instantiation (`int`,
`int64_t`, `bool`, `float`, `double` or `color`). -/
def glGet {T : Type} (current : Bool) (driver : Nat → T) (param : Nat) :
    Except GlError T :=
  if !current then
    Except.error GlError.inactiveContext
  else
    Except.ok (driver param)

/-! ### Clear operations of the `Context` facade -/

/-- `GL_COLOR_BUFFER_BIT`. -/
def GL_COLOR_BUFFER_BIT : Nat := 0x00004000

/-- The field `Context_impl::_clear_mask`. -/
structure ClearState where
  clear_mask : Nat
  deriving DecidableEq, Repr

/-- The in-class initializer `GLbitfield _clear_mask { GL_COLOR_BUFFER_BIT }`. -/
def clearState0 : ClearState := ⟨GL_COLOR_BUFFER_BIT⟩

/-- A submission to the native driver issued by the clear operations. -/
inductive DriverCall where
  | glClear (mask : Nat)
  deriving DecidableEq, Repr

/-- `Context::clear()`: `glClear(_impl->_clear_mask)`; the field is not
written. -/
def contextClear (c : ClearState) : ClearState × DriverCall :=
  (c, DriverCall.glClear c.clear_mask)

/-- `Context::clear(GLbitfield mask)`: `glClear(mask)`; the stored field
is neither read nor written. -/
def contextClearMask (c : ClearState) (mask : Nat) : ClearState × DriverCall :=
  (c, DriverCall.glClear mask)

/-! ### Helper lemmas -/

/-- After `make_current`, the single-owner slot holds the caller. -/
lemma monoMakeCurrent_fst (self : InstId) (s : MonoState) :
    (monoMakeCurrent self s).1 = ⟨some self⟩ := by
  unfold monoMakeCurrent
  cases s.current_context with
  | none => rfl
  | some c =>
      by_cases h : c ≠ self
      · simp [h]
      · simp [h]

/-- `make_current` on the owning thread never throws. -/
lemma multiMakeCurrent_own_err (inst : MultiInst) (s : MultiState) :
    (multiMakeCurrent inst.thread_id inst s).err = none := by
  unfold multiMakeCurrent
  simp only [ne_eq, not_true_eq_false, if_false, ite_false]
  cases h : s.current_context inst.thread_id with
  | none => simp
  | some j =>
      by_cases hj : j ≠ inst.id
      · simp [hj]
      · simp [hj]

/-- `make_current` on the owning thread leaves the owning slot holding
the caller. -/
lemma multiMakeCurrent_own_slot (inst : MultiInst) (s : MultiState) :
    (multiMakeCurrent inst.thread_id inst s).state.current_context inst.thread_id
      = some inst.id := by
  unfold multiMakeCurrent
  simp only [ne_eq, not_true_eq_false, if_false, ite_false]
  cases h : s.current_context inst.thread_id with
  | none => simp [Function.update_same]
  | some j =>
      by_cases hj : j ≠ inst.id
      · simp [hj, Function.update_same]
      · simp only [ne_eq, not_not] at hj
        simp [hj, h]

/-- No call of `make_current` touches a slot other than the slot of the
instance being made current. -/
lemma multiMakeCurrent_other_slot (caller : ThreadId) (inst : MultiInst)
    (s : MultiState) (t : ThreadId) (ht : t ≠ inst.thread_id) :
    (multiMakeCurrent caller inst s).state.current_context t
      = s.current_context t := by
  unfold multiMakeCurrent
  by_cases hc : caller ≠ inst.thread_id
  · simp [hc]
  · simp only [hc, if_false, ite_false]
    cases h : s.current_context inst.thread_id with
    | none => simp [Function.update_noteq ht]
    | some j =>
        by_cases hj : j ≠ inst.id
        · simp [hj, Function.update_noteq ht]
        · simp [hj]

/-- `current()` evaluated on the owning thread reads exactly the owning
slot. -/
lemma multiCurrent_own (inst : MultiInst) (s : MultiState) :
    multiCurrent inst.thread_id inst s
      = Except.ok (decide (s.current_context inst.thread_id = some inst.id)) := by
  simp [multiCurrent]

/-- A destructor never fills an empty slot: if the entry for thread `t`
is absent, it is still absent after any instance is destroyed. -/
lemma multiDestroy_slot_none (C : MultiInst) (s : MultiState) (t : ThreadId)
    (h : s.current_context t = none) :
    (multiDestroy C s).current_context t = none := by
  unfold multiDestroy
  by_cases hc : s.current_context C.thread_id = some C.id
  · simp only [hc, if_true, ite_true]
    by_cases ht : t = C.thread_id
    · rw [ht]
      simp [Function.update_same]
    · simp [Function.update_noteq ht, h]
  · simp [hc, h]

/-! ### Claim theorems -/

/-- Claim C1: for the single-owner variant and distinct instances `a`
and `b`, after `a.make_current()` then `b.make_current()`, instance `a`
is no longer current and `b` is current, and the second call performs
exactly the hook invocation on `a` followed by the store of `b` into
the process-wide slot — the hook fires exactly once, before `b` becomes
current. -/
theorem mono_supersede_c1 (a b : InstId) (s0 : MonoState) (hab : a ≠ b) :
    monoCurrent a (monoMakeCurrent b (monoMakeCurrent a s0).1).1 = false
    ∧ monoCurrent b (monoMakeCurrent b (monoMakeCurrent a s0).1).1 = true
    ∧ (monoMakeCurrent b (monoMakeCurrent a s0).1).2
        = [Event.hookCall a, Event.setCurrent b] := by
  have h1 : (monoMakeCurrent a s0).1 = ⟨some a⟩ := monoMakeCurrent_fst a s0
  rw [h1]
  have hba : a ≠ b := hab
  simp [monoMakeCurrent, monoCurrent, hba, Ne.symm hab]

theorem mono_supersede_c1_witness :
    monoCurrent 0 (monoMakeCurrent 1 (monoMakeCurrent 0 monoState0).1).1 = false
    ∧ monoCurrent 1 (monoMakeCurrent 1 (monoMakeCurrent 0 monoState0).1).1 = true
    ∧ (monoMakeCurrent 1 (monoMakeCurrent 0 monoState0).1).2
        = [Event.hookCall 0, Event.setCurrent 1] :=
  mono_supersede_c1 0 1 monoState0 (by decide)

/-- Claim C2: `make_current()` on a per-thread-owner instance invoked
from any thread other than the creating thread throws the cross-thread
access error, performs no hook call or store, and leaves the shared
mapping exactly as it was. -/
theorem multi_cross_thread_c2 (caller : ThreadId) (inst : MultiInst)
    (s : MultiState) (h : caller ≠ inst.thread_id) :
    (multiMakeCurrent caller inst s).err = some GlError.crossThreadAccess
    ∧ (multiMakeCurrent caller inst s).state = s
    ∧ (multiMakeCurrent caller inst s).events = [] := by
  simp [multiMakeCurrent, h]

theorem multi_cross_thread_c2_witness :
    (multiMakeCurrent 1 ⟨0, 0⟩ multiState0).err = some GlError.crossThreadAccess
    ∧ (multiMakeCurrent 1 ⟨0, 0⟩ multiState0).state = multiState0
    ∧ (multiMakeCurrent 1 ⟨0, 0⟩ multiState0).events = [] :=
  multi_cross_thread_c2 1 ⟨0, 0⟩ multiState0 (by decide)

/-- Claim C3: with instance `a` bound to thread `t1` and instance `b`
bound to a different thread `t2`, the call of `make_current` by `t1` on
`a` and the call by `t2` on `b` both succeed in either order, afterwards
`a` is current on `t1` and `b` is current on `t2`, and the second call
leaves the slot of the first thread untouched. -/
theorem multi_independent_c3 (t1 t2 : ThreadId) (a b : InstId)
    (s0 : MultiState) (h12 : t1 ≠ t2) :
    (multiMakeCurrent t1 ⟨a, t1⟩ s0).err = none
    ∧ (multiMakeCurrent t2 ⟨b, t2⟩ (multiMakeCurrent t1 ⟨a, t1⟩ s0).state).err = none
    ∧ multiCurrent t1 ⟨a, t1⟩
        (multiMakeCurrent t2 ⟨b, t2⟩ (multiMakeCurrent t1 ⟨a, t1⟩ s0).state).state
        = Except.ok true
    ∧ multiCurrent t2 ⟨b, t2⟩
        (multiMakeCurrent t2 ⟨b, t2⟩ (multiMakeCurrent t1 ⟨a, t1⟩ s0).state).state
        = Except.ok true
    ∧ (multiMakeCurrent t2 ⟨b, t2⟩ (multiMakeCurrent t1 ⟨a, t1⟩ s0).state).state.current_context t1
        = (multiMakeCurrent t1 ⟨a, t1⟩ s0).state.current_context t1
    ∧ (multiMakeCurrent t2 ⟨b, t2⟩ s0).err = none
    ∧ (multiMakeCurrent t1 ⟨a, t1⟩ (multiMakeCurrent t2 ⟨b, t2⟩ s0).state).err = none
    ∧ multiCurrent t1 ⟨a, t1⟩
        (multiMakeCurrent t1 ⟨a, t1⟩ (multiMakeCurrent t2 ⟨b, t2⟩ s0).state).state
        = Except.ok true
    ∧ multiCurrent t2 ⟨b, t2⟩
        (multiMakeCurrent t1 ⟨a, t1⟩ (multiMakeCurrent t2 ⟨b, t2⟩ s0).state).state
        = Except.ok true
    ∧ (multiMakeCurrent t1 ⟨a, t1⟩ (multiMakeCurrent t2 ⟨b, t2⟩ s0).state).state.current_context t2
        = (multiMakeCurrent t2 ⟨b, t2⟩ s0).state.current_context t2 := by
  have hA : (⟨a, t1⟩ : MultiInst).thread_id = t1 := rfl
  have hB : (⟨b, t2⟩ : MultiInst).thread_id = t2 := rfl
  refine ⟨?_, ?_, ?_, ?_, ?_, ?_, ?_, ?_, ?_, ?_⟩
  · exact multiMakeCurrent_own_err ⟨a, t1⟩ s0
  · exact multiMakeCurrent_own_err ⟨b, t2⟩ _
  · rw [multiCurrent_own ⟨a, t1⟩ _]
    rw [show t1 = (⟨a, t1⟩ : MultiInst).thread_id from rfl,
      multiMakeCurrent_other_slot t2 ⟨b, t2⟩ _ _ h12]
    simp [multiMakeCurrent_own_slot ⟨a, t1⟩ s0]
  · rw [multiCurrent_own ⟨b, t2⟩ _]
    simp [multiMakeCurrent_own_slot ⟨b, t2⟩ _]
  · exact multiMakeCurrent_other_slot t2 ⟨b, t2⟩ _ t1 h12
  · exact multiMakeCurrent_own_err ⟨b, t2⟩ s0
  · exact multiMakeCurrent_own_err ⟨a, t1⟩ _
  · rw [multiCurrent_own ⟨a, t1⟩ _]
    simp [multiMakeCurrent_own_slot ⟨a, t1⟩ _]
  · rw [multiCurrent_own ⟨b, t2⟩ _]
    rw [show t2 = (⟨b, t2⟩ : MultiInst).thread_id from rfl,
      multiMakeCurrent_other_slot t1 ⟨a, t1⟩ _ _ (Ne.symm h12)]
    simp [multiMakeCurrent_own_slot ⟨b, t2⟩ s0]
  · exact multiMakeCurrent_other_slot t1 ⟨a, t1⟩ _ t2 (Ne.symm h12)

theorem multi_independent_c3_witness :
    (multiMakeCurrent 0 ⟨10, 0⟩ multiState0).err = none
    ∧ (multiMakeCurrent 1 ⟨11, 1⟩ (multiMakeCurrent 0 ⟨10, 0⟩ multiState0).state).err = none
    ∧ multiCurrent 0 ⟨10, 0⟩
        (multiMakeCurrent 1 ⟨11, 1⟩ (multiMakeCurrent 0 ⟨10, 0⟩ multiState0).state).state
        = Except.ok true
    ∧ multiCurrent 1 ⟨11, 1⟩
        (multiMakeCurrent 1 ⟨11, 1⟩ (multiMakeCurrent 0 ⟨10, 0⟩ multiState0).state).state
        = Except.ok true
    ∧ (multiMakeCurrent 1 ⟨11, 1⟩ (multiMakeCurrent 0 ⟨10, 0⟩ multiState0).state).state.current_context 0
        = (multiMakeCurrent 0 ⟨10, 0⟩ multiState0).state.current_context 0
    ∧ (multiMakeCurrent 1 ⟨11, 1⟩ multiState0).err = none
    ∧ (multiMakeCurrent 0 ⟨10, 0⟩ (multiMakeCurrent 1 ⟨11, 1⟩ multiState0).state).err = none
    ∧ multiCurrent 0 ⟨10, 0⟩
        (multiMakeCurrent 0 ⟨10, 0⟩ (multiMakeCurrent 1 ⟨11, 1⟩ multiState0).state).state
        = Except.ok true
    ∧ multiCurrent 1 ⟨11, 1⟩
        (multiMakeCurrent 0 ⟨10, 0⟩ (multiMakeCurrent 1 ⟨11, 1⟩ multiState0).state).state
        = Except.ok true
    ∧ (multiMakeCurrent 0 ⟨10, 0⟩ (multiMakeCurrent 1 ⟨11, 1⟩ multiState0).state).state.current_context 1
        = (multiMakeCurrent 1 ⟨11, 1⟩ multiState0).state.current_context 1 :=
  multi_independent_c3 0 1 10 11 multiState0 (by decide)

/-- Claim C4: in every state — hence after every operation — at most one
instance is current per scope: two distinct instances are never both
current in the single-owner process-wide slot, and two distinct
per-thread-owner instances are never both current as observed from one
thread. -/
theorem at_most_one_current_c4 (s : MonoState) (ms : MultiState)
    (a b : InstId) (t : ThreadId) (A B : MultiInst)
    (hab : a ≠ b) (hAB : A ≠ B) :
    ¬(monoCurrent a s = true ∧ monoCurrent b s = true)
    ∧ ¬(multiCurrent t A ms = Except.ok true
        ∧ multiCurrent t B ms = Except.ok true) := by
  constructor
  · rintro ⟨h1, h2⟩
    simp only [monoCurrent, decide_eq_true_eq] at h1 h2
    exact hab (Option.some.inj (h1.symm.trans h2))
  · rintro ⟨h1, h2⟩
    by_cases hA : t = A.thread_id
    · by_cases hB : t = B.thread_id
      · subst hA
        rw [multiCurrent_own] at h1
        rw [hB, multiCurrent_own] at h2
        simp only [Except.ok.injEq, decide_eq_true_eq] at h1 h2
        apply hAB
        have hid : A.id = B.id := by
          have hsome : some A.id = some B.id := by
            rw [← h1, hB, h2]
          exact Option.some.inj hsome
        cases A
        cases B
        simp only [MultiInst.mk.injEq]
        exact ⟨hid, hB⟩
      · simp [multiCurrent, hB] at h2
    · simp [multiCurrent, hA] at h1

theorem at_most_one_current_c4_witness :
    ¬(monoCurrent 0 ⟨some 0⟩ = true ∧ monoCurrent 1 ⟨some 0⟩ = true)
    ∧ ¬(multiCurrent 0 ⟨0, 0⟩ multiState0 = Except.ok true
        ∧ multiCurrent 0 ⟨1, 0⟩ multiState0 = Except.ok true) :=
  at_most_one_current_c4 ⟨some 0⟩ multiState0 0 1 0 ⟨0, 0⟩ ⟨1, 0⟩
    (by decide) (by decide)

/-- Claim C5 counterexample: querying a per-thread-owner instance as
current from a foreign thread is NOT reported as a failure.  At the
concrete input below the calling thread differs from the creating
thread, yet `current()` returns normally with `false`
(`Except.ok false`), surfacing no error to the caller, contrary to the
claim. -/
theorem multi_query_reported_c5_counterexample :
    (1 : ThreadId) ≠ MultiInst.thread_id ⟨0, 0⟩
    ∧ multiCurrent 1 ⟨0, 0⟩ multiState0 = Except.ok false :=
  ⟨by decide, rfl⟩

/-- Claim C5 amended: only making a per-thread-owner instance current
from a foreign thread is reported as a failure (the cross-thread access
error); querying it as current from a foreign thread is silently
handled, returning `false` with no error surfaced. -/
theorem multi_query_not_error_c5 (caller : ThreadId) (inst : MultiInst)
    (s : MultiState) (h : caller ≠ inst.thread_id) :
    multiCurrent caller inst s = Except.ok false
    ∧ (multiMakeCurrent caller inst s).err = some GlError.crossThreadAccess := by
  constructor
  · simp [multiCurrent, h]
  · simp [multiMakeCurrent, h]

theorem multi_query_not_error_c5_witness :
    multiCurrent 2 ⟨5, 1⟩ multiState0 = Except.ok false
    ∧ (multiMakeCurrent 2 ⟨5, 1⟩ multiState0).err = some GlError.crossThreadAccess :=
  multi_query_not_error_c5 2 ⟨5, 1⟩ multiState0 (by decide)

/-- Claim C6: `current()` on a per-thread-owner instance from a thread
other than the creating thread returns `false` without error, and the
result does not depend on the shared mapping at all (the early return
happens before the lock is taken or the map is read); being a pure
function of the state, the call has no visible side effect. -/
theorem multi_query_foreign_false_c6 (caller : ThreadId) (inst : MultiInst)
    (s : MultiState) (h : caller ≠ inst.thread_id) :
    multiCurrent caller inst s = Except.ok false
    ∧ ∀ s2 : MultiState, multiCurrent caller inst s2 = multiCurrent caller inst s := by
  constructor
  · simp [multiCurrent, h]
  · intro s2
    simp [multiCurrent, h]

theorem multi_query_foreign_false_c6_witness :
    multiCurrent 7 ⟨3, 4⟩ multiState0 = Except.ok false
    ∧ ∀ s2 : MultiState, multiCurrent 7 ⟨3, 4⟩ s2 = multiCurrent 7 ⟨3, 4⟩ multiState0 :=
  multi_query_foreign_false_c6 7 ⟨3, 4⟩ multiState0 (by decide)

/-- Claim C7: destroying the currently-active instance empties the
corresponding slot — the process-wide reference for the single-owner
variant, the creating thread's map entry for the per-thread-owner
variant.  Afterwards no instance is current for that slot, and further
destructions keep the slot empty: only `make_current` can fill it. -/
theorem destroy_clears_slot_c7 (a : InstId) (s : MonoState)
    (inst : MultiInst) (ms : MultiState)
    (ha : monoCurrent a s = true)
    (hm : multiCurrent inst.thread_id inst ms = Except.ok true) :
    (monoDestroy a s).current_context = none
    ∧ (∀ b : InstId, monoCurrent b (monoDestroy a s) = false)
    ∧ (∀ c : InstId, monoDestroy c (monoDestroy a s) = monoDestroy a s)
    ∧ (multiDestroy inst ms).current_context inst.thread_id = none
    ∧ (∀ B : MultiInst, B.thread_id = inst.thread_id →
        ∀ u : ThreadId, multiCurrent u B (multiDestroy inst ms) = Except.ok false)
    ∧ (∀ C : MultiInst,
        (multiDestroy C (multiDestroy inst ms)).current_context inst.thread_id
          = none) := by
  simp only [monoCurrent, decide_eq_true_eq] at ha
  rw [multiCurrent_own] at hm
  simp only [Except.ok.injEq, decide_eq_true_eq] at hm
  have hdm : monoDestroy a s = ⟨none⟩ := by
    simp [monoDestroy, ha]
  have hds : (multiDestroy inst ms).current_context inst.thread_id = none := by
    simp [multiDestroy, hm, Function.update_same]
  refine ⟨?_, ?_, ?_, hds, ?_, ?_⟩
  · rw [hdm]
  · intro b
    rw [hdm]
    simp [monoCurrent]
  · intro c
    rw [hdm]
    simp [monoDestroy]
  · intro B hB u
    by_cases hu : u = B.thread_id
    · rw [hu, multiCurrent_own]
      rw [hB, hds]
      simp
    · simp [multiCurrent, hu]
  · intro C
    exact multiDestroy_slot_none C _ inst.thread_id hds

theorem destroy_clears_slot_c7_witness :
    (monoDestroy 2 ⟨some 2⟩).current_context = none
    ∧ (∀ b : InstId, monoCurrent b (monoDestroy 2 ⟨some 2⟩) = false)
    ∧ (∀ c : InstId, monoDestroy c (monoDestroy 2 ⟨some 2⟩) = monoDestroy 2 ⟨some 2⟩)
    ∧ (multiDestroy ⟨6, 1⟩ ⟨fun t => if t = 1 then some 6 else none⟩).current_context 1
        = none
    ∧ (∀ B : MultiInst, B.thread_id = MultiInst.thread_id ⟨6, 1⟩ →
        ∀ u : ThreadId,
          multiCurrent u B (multiDestroy ⟨6, 1⟩ ⟨fun t => if t = 1 then some 6 else none⟩)
            = Except.ok false)
    ∧ (∀ C : MultiInst,
        (multiDestroy C
          (multiDestroy ⟨6, 1⟩ ⟨fun t => if t = 1 then some 6 else none⟩)).current_context 1
          = none) :=
  destroy_clears_slot_c7 2 ⟨some 2⟩ ⟨6, 1⟩ ⟨fun t => if t = 1 then some 6 else none⟩
    (by decide) rfl

/-- Claim C8: the typed parameter read fails with the inactive-context
error exactly when `context.current()` is false, and when the context
is current it returns exactly the value the typed native query reports.
`b` stands for the result of `context.current()` on the calling thread
and `driver` for the native `glGet*` oracle of the instantiation. -/
theorem get_requires_current_c8 {T : Type} (driver : Nat → T) (b : Bool)
    (param : Nat) :
    (glGet b driver param = Except.error GlError.inactiveContext ↔ b = false)
    ∧ (glGet b driver param = Except.ok (driver param) ↔ b = true) := by
  cases b <;> simp [glGet]

theorem get_requires_current_c8_witness :
    glGet false (fun p : Nat => p + 1) 7 = Except.error GlError.inactiveContext
    ∧ glGet true (fun p : Nat => p + 1) 7 = Except.ok 8 :=
  ⟨(get_requires_current_c8 (fun p : Nat => p + 1) false 7).1.mpr rfl,
   (get_requires_current_c8 (fun p : Nat => p + 1) true 7).2.mpr rfl⟩

/-- Claim C9: re-making the current instance current is a no-op in both
variants.  For the single-owner variant the slot is unchanged and the
only event is the (idempotent) store — no hook fires; for the
per-thread-owner variant the call succeeds, the mapping is unchanged
and no event at all is produced.  In particular an instance's own hook
never fires when it re-makes itself current. -/
theorem remake_idempotent_c9 (a : InstId) (s : MonoState)
    (inst : MultiInst) (ms : MultiState)
    (ha : monoCurrent a s = true)
    (hm : multiCurrent inst.thread_id inst ms = Except.ok true) :
    (monoMakeCurrent a s).1 = s
    ∧ (monoMakeCurrent a s).2 = [Event.setCurrent a]
    ∧ (multiMakeCurrent inst.thread_id inst ms).err = none
    ∧ (multiMakeCurrent inst.thread_id inst ms).state = ms
    ∧ (multiMakeCurrent inst.thread_id inst ms).events = [] := by
  simp only [monoCurrent, decide_eq_true_eq] at ha
  rw [multiCurrent_own] at hm
  simp only [Except.ok.injEq, decide_eq_true_eq] at hm
  obtain ⟨cc⟩ := s
  simp only at ha
  subst ha
  refine ⟨?_, ?_, ?_, ?_, ?_⟩
  · simp [monoMakeCurrent]
  · simp [monoMakeCurrent]
  · simp [multiMakeCurrent, hm]
  · simp [multiMakeCurrent, hm]
  · simp [multiMakeCurrent, hm]

theorem remake_idempotent_c9_witness :
    (monoMakeCurrent 3 ⟨some 3⟩).1 = ⟨some 3⟩
    ∧ (monoMakeCurrent 3 ⟨some 3⟩).2 = [Event.setCurrent 3]
    ∧ (multiMakeCurrent 0 ⟨4, 0⟩ ⟨fun t => if t = 0 then some 4 else none⟩).err = none
    ∧ (multiMakeCurrent 0 ⟨4, 0⟩ ⟨fun t => if t = 0 then some 4 else none⟩).state
        = ⟨fun t => if t = 0 then some 4 else none⟩
    ∧ (multiMakeCurrent 0 ⟨4, 0⟩ ⟨fun t => if t = 0 then some 4 else none⟩).events = [] :=
  remake_idempotent_c9 3 ⟨some 3⟩ ⟨4, 0⟩ ⟨fun t => if t = 0 then some 4 else none⟩
    rfl rfl

/-- Claim C10: `clear(mask)` submits `glClear` with exactly the given
mask and leaves the stored `_clear_mask` field unchanged; the submitted
mask does not depend on the stored field, which is consulted only by
the no-argument `clear()`; the field is initialized to
`GL_COLOR_BUFFER_BIT`. -/
theorem clear_mask_c10 (c : ClearState) (mask : Nat) :
    contextClearMask c mask = (c, DriverCall.glClear mask)
    ∧ contextClear c = (c, DriverCall.glClear c.clear_mask)
    ∧ (∀ c2 : ClearState, (contextClearMask c2 mask).2 = (contextClearMask c mask).2)
    ∧ clearState0.clear_mask = GL_COLOR_BUFFER_BIT :=
  ⟨rfl, rfl, fun _ => rfl, rfl⟩

end Ogl
